import Mathlib

/-!
Verification of the execution subsystem of this repository: the feeder
(src/execution/feeder/feeder.py), the scheduler
(src/execution/scheduler/scheduler.py), the flag hasher
(src/execution/utils/hasher.py) and the settings encryption tool
(src/execution/utils/settings/settings.py).

Modelling conventions, used throughout:
- Python/JSON values are modelled by the inductive type `JVal`; Python `None`
  and JSON `null` are both `JVal.jnull` (as after `json.loads`).
  Floating-point JSON literals are outside the model: the embedded JSON
  parser `jsonParse` covers the JSON subset without floats, which is the
  subset every claim below is stated in.
- `json.loads` is modelled by the executable parser `jsonParse`; Python dicts
  arising from JSON objects are association lists with last-key-wins lookup
  (`lookupLast`), matching how `json.loads` builds a `dict`.
- The `requests` library is modelled at the call-outcome level
  (`CallOutcome`): a call either times out, fails with a connection error, or
  yields a response with a status code and a body that does or does not parse
  as JSON.  Per requests >= 2.27, `Response.json()` on a non-JSON body raises
  `requests.exceptions.JSONDecodeError`, which is a subclass of
  `RequestException`; the model follows that exception hierarchy.
- Fernet is modelled symbolically as ideal authenticated encryption: a
  settings string is either an ordinary string or a token carrying the key
  it was produced with and its plaintext, and decryption succeeds exactly on
  tokens produced with the matching key.  A Fernet key is modelled as valid
  iff it is a 44-character string (the urlsafe-base64 encoding of 32 bytes);
  the character-set check is elided, which no claim depends on.
- HMAC-SHA256 (`cryptography.hazmat.primitives.hmac` with SHA256) is
  implemented concretely below over byte lists (`Nat` bytes), so that flag
  computations are executable.
- Free-text interpolations of library exception objects into log/result
  strings (str(e) for a requests exception) are rendered by fixed
  descriptive strings; no claim depends on those texts.
-/

/-- JSON/Python values as produced by `json.loads` (floats excluded). -/
inductive JVal where
  | jnull
  | jbool (b : Bool)
  | jint (n : Int)
  | jstr (s : String)
  | jarr (xs : List JVal)
  | jobj (fields : List (String × JVal))

instance : Inhabited JVal := ⟨JVal.jnull⟩

/-- Lookup in a Python dict built from a JSON object: a duplicated key keeps
the last occurrence, so lookup scans the reversed field list. -/
def lookupLast (fields : List (String × JVal)) (k : String) : Option JVal :=
  (fields.reverse.find? (fun p => p.1 == k)).map (fun p => p.2)

/-- Python truthiness of a value (`bool(v)`): None, False, 0, empty string,
empty list and empty dict are falsy. -/
def pyTruthy : JVal → Bool
  | .jnull => false
  | .jbool b => b
  | .jint n => n != 0
  | .jstr s => s != ""
  | .jarr xs => !xs.isEmpty
  | .jobj fs => !fs.isEmpty

/-- Python truthiness of an optional value, where `none` is an absent value
(Python `None`). -/
def pyTruthyO : Option JVal → Bool
  | none => false
  | some v => pyTruthy v

/-- Python `v == 0` for a JSON value: integers compare numerically and
`False == 0` is true in Python; everything else compares unequal. -/
def pyEqZero : Option JVal → Bool
  | some (.jint n) => n == 0
  | some (.jbool b) => !b
  | _ => false

/-- Integer parse of a Python string as `int(s)` does: optional surrounding
spaces, an optional sign, then at least one digit. -/
def pyStrToInt (s : String) : Option Int :=
  let cs := s.data.dropWhile (fun c => c == ' ')
  let cs := cs.reverse.dropWhile (fun c => c == ' ') |>.reverse
  let (sign, digits) :=
    match cs with
    | '-' :: rest => ((-1 : Int), rest)
    | '+' :: rest => ((1 : Int), rest)
    | rest => ((1 : Int), rest)
  if digits.isEmpty || !digits.all Char.isDigit then none
  else some (sign * (digits.foldl (fun acc c => acc * 10 + (c.toNat - '0'.toNat)) (0 : Nat) : Nat))

/-- Python `int(v)` on a JSON value: ints are themselves, bools are 0/1
(bool is a subclass of int), numeric strings parse; `None`, lists and dicts
raise, modelled as `none`. -/
def pyToInt : JVal → Option Int
  | .jint n => some n
  | .jbool b => some (if b then 1 else 0)
  | .jstr s => pyStrToInt s
  | _ => none

/-- Coercion used by the feeder for numeric overrides:
`try: int(x) except (ValueError, TypeError): default`, applied to
`payload.get(key, default)`. -/
def pyIntOr (v : Option JVal) (dflt : Int) : Int :=
  match v with
  | none => dflt
  | some v => (pyToInt v).getD dflt

/-- ASCII lowercasing, modelling str.lower() on the language names this
system handles (kernel-reducible, unlike String.toLower). -/
def pyLower (s : String) : String :=
  String.mk (s.data.map (fun c => if c.toNat ≥ 65 && c.toNat ≤ 90 then Char.ofNat (c.toNat + 32) else c))

/-- Python type name of a value, for exception texts. -/
def pyTypeName : JVal → String
  | .jnull => "NoneType"
  | .jbool _ => "bool"
  | .jint _ => "int"
  | .jstr _ => "str"
  | .jarr _ => "list"
  | .jobj _ => "dict"

mutual

/-- Python `repr` of a JSON value, as it appears inside f-strings rendering
containers (string escaping subtleties elided). -/
def pyRepr : JVal → String
  | .jnull => "None"
  | .jbool b => if b then "True" else "False"
  | .jint n => toString n
  | .jstr s => "\x27" ++ s ++ "\x27"
  | .jarr xs => "[" ++ String.intercalate ", " (pyReprList xs) ++ "]"
  | .jobj fs => "\x7b" ++ String.intercalate ", " (pyReprFields fs) ++ "\x7d"

def pyReprList : List JVal → List String
  | [] => []
  | v :: vs => pyRepr v :: pyReprList vs

def pyReprFields : List (String × JVal) → List String
  | [] => []
  | (k, v) :: fs => ("\x27" ++ k ++ "\x27: " ++ pyRepr v) :: pyReprFields fs

end

/-- Python `str(v)` as used by f-string interpolation. -/
def pyFormat : JVal → String
  | .jstr s => s
  | v => pyRepr v

/-- Text of the AttributeError raised by `v.encode(...)` on a non-string. -/
def attrErrTextEncode (v : JVal) : String :=
  "\x27" ++ pyTypeName v ++ "\x27 object has no attribute \x27encode\x27"

/-- Text of the AttributeError raised by `v.get(...)` on a non-dict. -/
def attrErrTextGet (v : JVal) : String :=
  "\x27" ++ pyTypeName v ++ "\x27 object has no attribute \x27get\x27"

/- ### A JSON parser, modelling `json.loads` on the float-free subset -/

/-- Whitespace skipper for the JSON parser. -/
def skipWs : List Char → List Char
  | c :: cs => if c == ' ' || c == '\t' || c == '\n' || c == '\r' then skipWs cs else c :: cs
  | [] => []

/-- String-literal body parser: consumes characters until the closing quote,
handling the common escapes. -/
def parseStringBody : List Char → List Char → Option (String × List Char)
  | acc, '"' :: rest => some (String.mk acc.reverse, rest)
  | acc, '\\' :: e :: rest =>
    match e with
    | '"' => parseStringBody ('"' :: acc) rest
    | '\\' => parseStringBody ('\\' :: acc) rest
    | '/' => parseStringBody ('/' :: acc) rest
    | 'n' => parseStringBody ('\n' :: acc) rest
    | 't' => parseStringBody ('\t' :: acc) rest
    | 'r' => parseStringBody ('\r' :: acc) rest
    | 'b' => parseStringBody ('\x08' :: acc) rest
    | 'f' => parseStringBody ('\x0c' :: acc) rest
    | _ => none
  | acc, c :: rest => if c == '"' || c == '\\' then none else parseStringBody (c :: acc) rest
  | _, [] => none

/-- Digit-run parser for JSON integers. -/
def parseDigits : List Char → Nat → List Char → Option (Nat × List Char)
  | acc, n, c :: rest =>
    if c.isDigit then parseDigits (c :: acc) (n * 10 + (c.toNat - '0'.toNat)) rest
    else if acc.isEmpty then none
    else if c == '.' || c == 'e' || c == 'E' then none
    else some (n, c :: rest)
  | acc, n, [] => if acc.isEmpty then none else some (n, [])

mutual

/-- JSON value parser with fuel; fuel bounds the nesting depth. -/
def parseVal : Nat → List Char → Option (JVal × List Char)
  | 0, _ => none
  | fuel + 1, cs =>
    match skipWs cs with
    | 'n' :: 'u' :: 'l' :: 'l' :: rest => some (.jnull, rest)
    | 't' :: 'r' :: 'u' :: 'e' :: rest => some (.jbool true, rest)
    | 'f' :: 'a' :: 'l' :: 's' :: 'e' :: rest => some (.jbool false, rest)
    | '"' :: rest =>
      match parseStringBody [] rest with
      | some (s, rest) => some (.jstr s, rest)
      | none => none
    | '-' :: rest =>
      match parseDigits [] 0 rest with
      | some (n, rest) => some (.jint (-(n : Int)), rest)
      | none => none
    | '[' :: rest =>
      (match skipWs rest with
       | ']' :: rest => some (.jarr [], rest)
       | rest =>
         match parseItems fuel rest with
         | some (xs, rest) => some (.jarr xs, rest)
         | none => none)
    | '\x7b' :: rest =>
      (match skipWs rest with
       | '\x7d' :: rest => some (.jobj [], rest)
       | rest =>
         match parseFields fuel rest with
         | some (fs, rest) => some (.jobj fs, rest)
         | none => none)
    | c :: rest =>
      if c.isDigit then
        match parseDigits [] 0 (c :: rest) with
        | some (n, rest) => some (.jint (n : Int), rest)
        | none => none
      else none
    | [] => none

/-- Comma-separated array items, expecting a closing bracket. -/
def parseItems : Nat → List Char → Option (List JVal × List Char)
  | 0, _ => none
  | fuel + 1, cs =>
    match parseVal fuel cs with
    | some (v, rest) =>
      (match skipWs rest with
       | ',' :: rest =>
         match parseItems fuel rest with
         | some (xs, rest) => some (v :: xs, rest)
         | none => none
       | ']' :: rest => some ([v], rest)
       | _ => none)
    | none => none

/-- Comma-separated object members, expecting a closing brace. -/
def parseFields : Nat → List Char → Option (List (String × JVal) × List Char)
  | 0, _ => none
  | fuel + 1, cs =>
    match skipWs cs with
    | '"' :: rest =>
      (match parseStringBody [] rest with
       | some (k, rest) =>
         (match skipWs rest with
          | ':' :: rest =>
            (match parseVal fuel rest with
             | some (v, rest) =>
               (match skipWs rest with
                | ',' :: rest =>
                  match parseFields fuel rest with
                  | some (fs, rest) => some ((k, v) :: fs, rest)
                  | none => none
                | '\x7d' :: rest => some ([(k, v)], rest)
                | _ => none)
             | none => none)
          | _ => none)
       | none => none)
    | _ => none

end

/-- Model of `json.loads`: parse a whole string as a single JSON value,
requiring only whitespace after it; `none` models `json.JSONDecodeError`. -/
def jsonParse (s : String) : Option JVal :=
  match parseVal (s.length + 1) s.data with
  | some (v, rest) => if (skipWs rest).isEmpty then some v else none
  | none => none

/- ### SHA-256 and HMAC-SHA256 over byte lists (Nat bytes, arithmetic mod 2^32) -/

/-- Truncation to a 32-bit word. -/
def w32 (n : Nat) : Nat := n % 4294967296

/-- Right rotation of a 32-bit word by r bits. -/
def rotr32 (r x : Nat) : Nat := w32 ((x >>> r) ||| (x <<< (32 - r)))

/-- SHA-256 round constants. -/
def sha256K : List Nat :=
  [1116352408, 1899447441, 3049323471, 3921009573, 961987163,
   1508970993, 2453635748, 2870763221, 3624381080, 310598401,
   607225278, 1426881987, 1925078388, 2162078206, 2614888103,
   3248222580, 3835390401, 4022224774, 264347078, 604807628,
   770255983, 1249150122, 1555081692, 1996064986, 2554220882,
   2821834349, 2952996808, 3210313671, 3336571891, 3584528711,
   113926993, 338241895, 666307205, 773529912, 1294757372,
   1396182291, 1695183700, 1986661051, 2177026350, 2456956037,
   2730485921, 2820302411, 3259730800, 3345764771, 3516065817,
   3600352804, 4094571909, 275423344, 430227734, 506948616,
   659060556, 883997877, 958139571, 1322822218, 1537002063,
   1747873779, 1955562222, 2024104815, 2227730452, 2361852424,
   2428436474, 2756734187, 3204031479, 3329325298]

/-- SHA-256 initial hash state. -/
def sha256H0 : List Nat :=
  [1779033703, 3144134277, 1013904242, 2773480762,
   1359893119, 2600822924, 528734635, 1541459225]

/-- Big-endian byte encoding of a number into a fixed number of bytes. -/
def toBEBytes : Nat → Nat → List Nat
  | 0, _ => []
  | len + 1, n => toBEBytes len (n / 256) ++ [n % 256]

/-- SHA-256 message padding: 0x80, zeros up to 56 mod 64, 64-bit bit length. -/
def sha256Pad (msg : List Nat) : List Nat :=
  let L := msg.length
  let z := (119 - L % 64) % 64
  msg ++ [0x80] ++ List.replicate z 0 ++ toBEBytes 8 (L * 8)

/-- Fuel-driven split of a byte list into 64-byte chunks. -/
def chunks64Go : Nat → List Nat → List (List Nat)
  | 0, _ => []
  | _, [] => []
  | fuel + 1, bs => bs.take 64 :: chunks64Go fuel (bs.drop 64)

/-- Split a byte list into 64-byte chunks. -/
def chunks64 (bs : List Nat) : List (List Nat) := chunks64Go bs.length bs

/-- Big-endian assembly of bytes into 32-bit words. -/
def bytesToWordsBE : List Nat → List Nat
  | b0 :: b1 :: b2 :: b3 :: rest => (((b0 * 256 + b1) * 256 + b2) * 256 + b3) :: bytesToWordsBE rest
  | _ => []

/-- Message-schedule extension: append one word per step. -/
def sha256ExtendGo : Nat → Array Nat → Array Nat
  | 0, ws => ws
  | n + 1, ws =>
    let i := ws.size
    let w15 := ws.getD (i - 15) 0
    let w2 := ws.getD (i - 2) 0
    let w16 := ws.getD (i - 16) 0
    let w7 := ws.getD (i - 7) 0
    let s0 := (rotr32 7 w15) ^^^ (rotr32 18 w15) ^^^ (w15 >>> 3)
    let s1 := (rotr32 17 w2) ^^^ (rotr32 19 w2) ^^^ (w2 >>> 10)
    sha256ExtendGo n (ws.push (w32 (w16 + s0 + w7 + s1)))

/-- One SHA-256 compression round, state as an 8-tuple of words. -/
def sha256Round (st : Nat × Nat × Nat × Nat × Nat × Nat × Nat × Nat) (kw : Nat × Nat) :
    Nat × Nat × Nat × Nat × Nat × Nat × Nat × Nat :=
  let (a, b, c, d, e, f, g, h) := st
  let S1 := rotr32 6 e ^^^ rotr32 11 e ^^^ rotr32 25 e
  let ch := (e &&& f) ^^^ ((4294967295 - e) &&& g)
  let temp1 := w32 (h + S1 + ch + kw.1 + kw.2)
  let S0 := rotr32 2 a ^^^ rotr32 13 a ^^^ rotr32 22 a
  let maj := (a &&& b) ^^^ (a &&& c) ^^^ (b &&& c)
  let temp2 := w32 (S0 + maj)
  (w32 (temp1 + temp2), a, b, c, w32 (d + temp1), e, f, g)

/-- SHA-256 compression of one 64-byte chunk into the running state. -/
def sha256Chunk (hs : List Nat) (chunk : List Nat) : List Nat :=
  let ws := sha256ExtendGo 48 (Array.mk (bytesToWordsBE chunk))
  let h0 := hs.getD 0 0
  let h1 := hs.getD 1 0
  let h2 := hs.getD 2 0
  let h3 := hs.getD 3 0
  let h4 := hs.getD 4 0
  let h5 := hs.getD 5 0
  let h6 := hs.getD 6 0
  let h7 := hs.getD 7 0
  let st := (sha256K.zip ws.toList).foldl sha256Round (h0, h1, h2, h3, h4, h5, h6, h7)
  let (a, b, c, d, e, f, g, h) := st
  [w32 (h0 + a), w32 (h1 + b), w32 (h2 + c), w32 (h3 + d),
   w32 (h4 + e), w32 (h5 + f), w32 (h6 + g), w32 (h7 + h)]

/-- SHA-256 of a byte list, as a 32-byte list. -/
def sha256 (msg : List Nat) : List Nat :=
  ((chunks64 (sha256Pad msg)).foldl sha256Chunk sha256H0).flatMap (toBEBytes 4)

/-- HMAC-SHA256 of a message under a key, both byte lists. -/
def hmacSha256 (key msg : List Nat) : List Nat :=
  let k1 := if key.length > 64 then sha256 key else key
  let k2 := k1 ++ List.replicate (64 - k1.length) 0
  let ipadded := k2.map (fun b => b ^^^ 0x36)
  let opadded := k2.map (fun b => b ^^^ 0x5c)
  sha256 (opadded ++ sha256 (ipadded ++ msg))

/-- Lowercase hex digit of a value below 16. -/
def hexDigit (n : Nat) : Char :=
  if n < 10 then Char.ofNat (48 + n) else Char.ofNat (97 + n - 10)

/-- Lowercase hex string of a byte list, as Python bytes.hex() produces. -/
def bytesToHex (bs : List Nat) : String :=
  String.mk (bs.flatMap (fun b => [hexDigit (b / 16), hexDigit (b % 16)]))

/-- UTF-8 encoding of a string as a byte list, modelling str.encode. -/
def utf8Bytes (s : String) : List Nat := s.toUTF8.toList.map (fun b => b.toNat)

/-- The composite used by both the scheduler and the hasher utility:
HMAC(key.encode, SHA256) over input.encode, hex-encoded. -/
def hmacSha256Hex (key msg : String) : String :=
  bytesToHex (hmacSha256 (utf8Bytes key) (utf8Bytes msg))

/- ### src/execution/utils/hasher.py -/

namespace Hasher

/-- Model of hasher.py generate_flag: HMAC(SIGNATURE_KEY.encode, SHA256)
updated with input_string.encode, finalized and hex-encoded.  The module
reads SIGNATURE_KEY via os.getenv("SIGNATURE_KEY", ""), so the key is the
environment value or the empty string; it is passed here explicitly. -/
def generate_flag (signatureKey : String) (input_string : String) : String :=
  hmacSha256Hex signatureKey input_string

end Hasher

/- ### Symbolic Fernet and src/execution/utils/settings/settings.py -/

/-- A Python string flowing through the settings channel: either an ordinary
string or a Fernet token recording the key it was encrypted under and its
plaintext (ideal authenticated encryption). -/
inductive SettingsStr where
  | lit (s : String)
  | tok (key : String) (plaintext : String)

/-- Fernet decryption: succeeds exactly on tokens produced with the same
key; `none` models cryptography.fernet.InvalidToken (tampered or corrupted
token, or wrong key). -/
def fernetDecrypt (key : String) : SettingsStr → Option String
  | .lit _ => none
  | .tok k pt => if k == key then some pt else none

/-- Validity of a Fernet key: the urlsafe-base64 encoding of 32 bytes is 44
characters long (character-set check elided; no claim depends on it). -/
def fernetKeyValid (k : String) : Bool := k.length == 44

namespace Settings

/-- Model of settings.py encrypt_settings_json: json.loads the input to
validate it (ValueError on failure, modelled as `Except.error`), then
Fernet-encrypt the string's bytes and return the token. -/
def encrypt_settings_json (encryptionKey : String) (json_string : String) :
    Except String SettingsStr :=
  match jsonParse json_string with
  | none => .error "Input string is not valid JSON."
  | some _ => .ok (.tok encryptionKey json_string)

end Settings

/- ### src/execution/scheduler/scheduler.py -/

namespace Scheduler

/-- Environment configuration of the scheduler process: raw values of the
two key environment variables (`none` when the variable is absent). -/
structure SchedulerConfig where
  encKeyEnv : Option String
  sigKeyEnv : Option String

/-- Model of os.getenv(name, default): the variable value or the default. -/
def os_getenv (envValue : Option String) (dflt : Option String) : Option String :=
  match envValue with
  | some v => some v
  | none => dflt

/-- scheduler.py line 35: ENCRYPTION_KEY = os.getenv("ENCRYPTION_KEY", "").
The result is a Python str, i.e. never None. -/
def ENCRYPTION_KEY (c : SchedulerConfig) : Option String := os_getenv c.encKeyEnv (some "")

/-- scheduler.py line 37: SIGNATURE_KEY = os.getenv("SIGNATURE_KEY", ""). -/
def SIGNATURE_KEY (c : SchedulerConfig) : Option String := os_getenv c.sigKeyEnv (some "")

/-- Lifespan initialization of fernet_cipher: stays None when ENCRYPTION_KEY
is None (dead branch) or when Fernet(key) raises on an invalid key; holds
the key otherwise. -/
def fernet_cipher (c : SchedulerConfig) : Option String :=
  match ENCRYPTION_KEY c with
  | none => none
  | some k => if fernetKeyValid k then some k else none

/-- Execution-parameter overrides extracted by process_settings; a missing
field is an override the settings object did not carry. -/
structure SettingsParams where
  memory_limit : Option Int
  compile_timeout : Option Int
  run_timeout : Option Int
deriving Repr, DecidableEq

/-- Extraction of one recognized numeric override:
`k in settings_json and isinstance(settings_json[k], (int, float))` then
`int(...)`.  bool is a subclass of int in Python, so booleans pass the
isinstance check and convert to 0/1; floats are outside the model. -/
def numField (fields : List (String × JVal)) (k : String) : Option Int :=
  match lookupLast fields k with
  | some (.jint n) => some n
  | some (.jbool b) => some (if b then 1 else 0)
  | _ => none

/-- Model of scheduler.py process_settings: every failure is a ValueError,
modelled as `Except.error` with the ValueError text; decryption, UTF-8
decoding and JSON parsing of the recovered plaintext, a dict check, then
extraction of the three recognized numeric overrides — every other key is
ignored. -/
def process_settings (cipher : Option String) (encrypted_settings_string : SettingsStr) :
    Except String SettingsParams :=
  match cipher with
  | none => .error "Encryption key not set or Fernet cipher not initialized."
  | some key =>
    match fernetDecrypt key encrypted_settings_string with
    | none => .error "Invalid encrypted settings token."
    | some decrypted_string =>
      match jsonParse decrypted_string with
      | none => .error "Decrypted settings is not valid JSON."
      | some (.jobj fields) =>
        .ok { memory_limit := numField fields "memory_limit",
              compile_timeout := numField fields "compile_timeout",
              run_timeout := numField fields "run_timeout" }
      | some _ =>
        .error "Error processing settings: Decrypted settings is not a JSON object."

/-- Body of a 200 response from the submit endpoint. -/
structure FlagResp where
  flag : String
deriving Repr, DecidableEq

/-- Model of scheduler.py process_feeder_response.  The signature key is the
module global SIGNATURE_KEY (an Option, mirroring the `is None` check that
raises ValueError).  The stdout field is looked up with default "", None is
normalized to ""; hashing a non-string raises AttributeError inside the
try block, which the except clause converts into an ERROR_HASHING_FAILED
flag, so the function never raises past that point. -/
def process_feeder_response (sigKey : Option String) (feeder_result : List (String × JVal)) :
    Except String FlagResp :=
  match sigKey with
  | none => .error "Signature key not set."
  | some key =>
    let output0 : JVal := (lookupLast feeder_result "stdout").getD (.jstr "")
    let output_to_hash : JVal := match output0 with | .jnull => .jstr "" | v => v
    match output_to_hash with
    | .jstr s => .ok { flag := hmacSha256Hex key s }
    | v => .ok { flag := "ERROR_HASHING_FAILED: " ++ attrErrTextEncode v }

end Scheduler

namespace Scheduler

/-- Outcome of the results-consumer loop on one delivered message:
the pending registry after the delivery, the future resolved by it (job id
and payload), and whether the delivery was acknowledged. -/
structure ConsumeOut where
  pending : List String
  resolved : Option (String × List (String × JVal))
  acked : Bool

/-- Model of one iteration of scheduler.py consume_results: parse the body
(malformed JSON is acknowledged and dropped); look the job_id up in
pending_results; when present, pop the entry and resolve its future with the
payload; otherwise log and drop.  A payload that is not a dict raises in
`result_payload.get`, is caught by the except clause and acknowledged; an
unhashable job_id raises in the `in` check with the same effect; both leave
the registry unchanged. -/
def consume_results_step (pending : List String) (body : String) : ConsumeOut :=
  match jsonParse body with
  | none => ⟨pending, none, true⟩
  | some (.jobj fields) =>
    match lookupLast fields "job_id" with
    | some (.jstr j) =>
      if pending.contains j then ⟨pending.erase j, some (j, fields), true⟩
      else ⟨pending, none, true⟩
    | _ => ⟨pending, none, true⟩
  | some _ => ⟨pending, none, true⟩

/-- The settings field of a request body: a string (ordinary or token) or a
JSON value of another type, which fails the isinstance(str) check. -/
inductive SettingsField where
  | str (s : SettingsStr)
  | nonStr (v : JVal)

/-- The request body as read by submit_code: `await request.json()` fails,
parses to a non-dict (making `request_data.get` raise), or parses to a dict
from which the three fields are read. -/
inductive ReqBody where
  | notJson
  | nonDict (v : JVal)
  | dict (code : Option JVal) (language : Option JVal) (settings : Option SettingsField)

/-- Outcome of awaiting the pending future with the execution deadline:
resolved with a ResultMessage payload before the deadline, or timed out. -/
inductive WaitOutcome where
  | resolved (payload : List (String × JVal))
  | timedOut

/-- One HTTP call to the submit endpoint: broker availability, process
configuration, request body, and how the wait on the future ends. -/
structure SubmitEnv where
  brokerUp : Bool
  cfg : SchedulerConfig
  req : ReqBody
  wait : WaitOutcome

/-- TaskMessage published to the task queue. -/
structure TaskMsg where
  job_id : String
  code : JVal
  language : JVal
  params : SettingsParams

/-- HTTP response of the submit endpoint: status code, and the flag carried
by a 200 body. -/
structure HttpResponse where
  statusCode : Nat
  flag : Option String
deriving Repr, DecidableEq

/-- Result of one submit_code call: the response, the TaskMessage published
(if any), and the pending-result registry after the call completes. -/
structure SubmitOut where
  response : HttpResponse
  publishedTask : Option TaskMsg
  pendingAfter : List String

/-- Tail of submit_code after validation: create the future and register it,
publish the TaskMessage, then await with the deadline.  On resolution the
consumer has already popped the entry and the handler hashes the payload
into the response; on timeout the handler deletes the entry and raises 504;
an error from process_feeder_response is caught and becomes a 500 with the
same cleanup. -/
def publishAndWait (env : SubmitEnv) (jobId : String) (pending0 : List String)
    (code language : JVal) (params : SettingsParams) : SubmitOut :=
  let task : TaskMsg := ⟨jobId, code, language, params⟩
  let pending1 := jobId :: pending0
  match env.wait with
  | .resolved payload =>
    match process_feeder_response (SIGNATURE_KEY env.cfg) payload with
    | .ok r => ⟨⟨200, some r.flag⟩, some task, pending1.erase jobId⟩
    | .error _ => ⟨⟨500, none⟩, some task, pending1.erase jobId⟩
  | .timedOut => ⟨⟨504, none⟩, some task, pending1.erase jobId⟩

/-- Model of scheduler.py submit_code: 503 when the publish channel is
unavailable; 500 when either key global `is None` (dead check: both globals
are os.getenv values with default "", hence never None); 400 on a malformed
JSON body; 500 when the body is not a dict (AttributeError reaches the
outermost except); 400 when code or language is missing or falsy; 400 when
settings is present but not a string, or when process_settings raises
ValueError; then publish and await. -/
def submit_code (env : SubmitEnv) (jobId : String) (pending0 : List String) : SubmitOut :=
  if !env.brokerUp then ⟨⟨503, none⟩, none, pending0⟩
  else if (ENCRYPTION_KEY env.cfg).isNone || (SIGNATURE_KEY env.cfg).isNone then
    ⟨⟨500, none⟩, none, pending0⟩
  else
    match env.req with
    | .notJson => ⟨⟨400, none⟩, none, pending0⟩
    | .nonDict _ => ⟨⟨500, none⟩, none, pending0⟩
    | .dict codeF langF settingsF =>
      if !pyTruthyO codeF || !pyTruthyO langF then ⟨⟨400, none⟩, none, pending0⟩
      else
        match settingsF with
        | some (.nonStr _) => ⟨⟨400, none⟩, none, pending0⟩
        | some (.str ss) =>
          match process_settings (fernet_cipher env.cfg) ss with
          | .error _ => ⟨⟨400, none⟩, none, pending0⟩
          | .ok params =>
            publishAndWait env jobId pending0 (codeF.getD .jnull) (langF.getD .jnull) params
        | none =>
          publishAndWait env jobId pending0 (codeF.getD .jnull) (langF.getD .jnull) ⟨none, none, none⟩

end Scheduler

/- ### src/execution/feeder/feeder.py -/

namespace Feeder

/-- Feeder process configuration: the three default limits read from the
environment at startup, and the runtime registry built from the engine's
advertised runtimes (language/alias, lowercased, to version). -/
structure FeederConfig where
  defaultMemoryLimitMb : Int
  defaultCompileTimeoutMs : Int
  defaultRunTimeoutMs : Int
  langMap : List (String × String)

/-- Outcome of one requests.post call to the Piston execute endpoint:
requests.exceptions.Timeout, another connection-level RequestException, or
an HTTP response carrying a status code and a body (`none` when the body
does not parse as JSON, making Response.json() raise). -/
inductive CallOutcome where
  | timeout
  | connError
  | resp (status : Nat) (body : Option JVal)

/-- ResultMessage wire format published to the results queue. -/
structure ResultMsg where
  job_id : JVal
  stdout : JVal
  stderr : JVal
  compile_output : JVal
  compile_stderr : JVal
  language : JVal
  version : JVal
  status : String
  message : JVal
  fail : Bool

/-- Result of consuming one task message: the ResultMessages published while
processing it, and whether the message was acknowledged (message.process()
acknowledges on normal exit, and every path exits normally because the
outermost except clauses swallow all exceptions). -/
structure FeederOut where
  published : List ResultMsg
  acked : Bool

/-- Model of feeder.py send_error (lines 104-127): the error ResultMessage
it publishes, with stdout/compile fields None and fail always True. -/
def send_error_payload (job_id language version : JVal) (message status : String)
    (stderr : JVal) : ResultMsg :=
  { job_id := job_id, stdout := .jnull, stderr := stderr, compile_output := .jnull,
    compile_stderr := .jnull, language := language, version := version,
    status := status, message := .jstr message, fail := true }

/-- Registry lookup, `language_version_map.get(key)`: the map is a dict
built by insertion, so a duplicated name keeps the last insertion. -/
def langLookup (m : List (String × String)) (k : String) : Option String :=
  (m.reverse.find? (fun p => p.1 == k)).map (fun p => p.2)

/-- Python `v.get(k)` where v may not be a dict: returns the value (None for
an absent key) or raises AttributeError, carried in `Except.error`. -/
def jget (v : JVal) (k : String) : Except String JVal :=
  match v with
  | .jobj fs => .ok ((lookupLast fs k).getD .jnull)
  | v => .error (attrErrTextGet v)

/-- The message prioritization of feeder.py lines 288-294: run signal, else
compile stderr, else run stderr, else None, with the code's prefixes and
Python short-circuit evaluation (a truthy non-dict stage raises). -/
def messageChain (run_stage compile_stage : JVal) : Except String (Option String) := do
  let sigCond ←
    if pyTruthy run_stage then do
      let sig ← jget run_stage "signal"
      pure (if pyTruthy sig then some sig else none)
    else pure none
  match sigCond with
  | some sig => pure (some ("Signal: " ++ pyFormat sig))
  | none =>
    let csCond ←
      if pyTruthy compile_stage then do
        let cs ← jget compile_stage "stderr"
        pure (if pyTruthy cs then some cs else none)
      else pure none
    match csCond with
    | some cs => pure (some ("Compile Error: " ++ pyFormat cs))
    | none =>
      let rsCond ←
        if pyTruthy run_stage then do
          let rs ← jget run_stage "stderr"
          pure (if pyTruthy rs then some rs else none)
        else pure none
      match rsCond with
      | some rs => pure (some ("Runtime Error: " ++ pyFormat rs))
      | none => pure none

/-- The status derivation of feeder.py line 287:
`"success" if run_stage and run_stage.get("code") == 0 else "error"`. -/
def stageStatus (run_stage : JVal) : Except String String :=
  if pyTruthy run_stage then
    (jget run_stage "code").map (fun c => if pyEqZero (some c) then "success" else "error")
  else pure "error"

/-- One payload field drawn from a stage:
`stage.get(key) if stage else None`, with the AttributeError of a truthy
non-dict stage carried in `Except.error`. -/
def stageField (stage : JVal) (k : String) : Except String JVal :=
  if pyTruthy stage then jget stage k else pure .jnull

/-- The 2xx result assembly of feeder.py lines 282-307 on a parsed body:
status follows `stageStatus`, the message follows `messageChain`, the
payload fields are drawn from the run and compile stages (None when the
stage is falsy), and fail is False.  An AttributeError from a truthy
non-dict stage propagates as `Except.error`. -/
def buildSuccessPayload (jid : JVal) (er : JVal) : Except String ResultMsg := do
  let run_stage ← jget er "run"
  let compile_stage ← jget er "compile"
  let status_str ← stageStatus run_stage
  let message_str ← messageChain run_stage compile_stage
  let stdoutV ← stageField run_stage "stdout"
  let stderrV ← stageField run_stage "stderr"
  let compile_outputV ← stageField compile_stage "output"
  let compile_stderrV ← stageField compile_stage "stderr"
  let languageV ← jget er "language"
  let versionV ← jget er "version"
  pure { job_id := jid, stdout := stdoutV, stderr := stderrV,
         compile_output := compile_outputV, compile_stderr := compile_stderrV,
         language := languageV, version := versionV, status := status_str,
         message := (message_str.map JVal.jstr).getD .jnull, fail := false }

/-- Outcome of the 429 retry loop of feeder.py lines 230-256: a non-429
error during retry, exhaustion of the cap, or a response obtained by break. -/
inductive RetryOut where
  | errRetry
  | exhausted
  | gotResp (status : Nat) (body : Option JVal)

/-- Model of the retry while-loop (feeder.py lines 230-256): up to 10
retries; a retry response below 400 passes raise_for_status and breaks; a
429 increments the counter and continues; any other RequestException —
including Timeout, a connection error, or an HTTPError for a non-429
status — takes the non-429 branch.  Fuel is structural; callers pass 11,
which the loop counter bounds cannot outrun. -/
def retryLoop (engine : Nat → CallOutcome) : Nat → Nat → Nat → RetryOut
  | 0, _, _ => .exhausted
  | fuel + 1, callIdx, loops =>
    if loops > 10 then .exhausted
    else
      match engine callIdx with
      | .timeout => .errRetry
      | .connError => .errRetry
      | .resp st body =>
        if st ≥ 400 then
          if st == 429 then retryLoop engine fuel (callIdx + 1) (loops + 1)
          else .errRetry
        else .gotResp st body

/-- The response-processing tail of feeder.py starting at line 281:
execution_result = response.json(); a JSONDecodeError there is caught at
line 311 as piston_response_error; any other exception while assembling the
payload is caught at line 322 as feeder_processing_error; otherwise the
assembled ResultMessage is published. -/
def handle2xx (jid language_v : JVal) (version : String) (body : Option JVal) : FeederOut :=
  match body with
  | none =>
    ⟨[send_error_payload jid language_v (.jstr version)
        ("Failed to decode JSON response from Piston API for job ID " ++ pyFormat jid ++ ".")
        "piston_response_error"
        (.jstr "Feeder internal error: Failed to decode Piston API response.")], true⟩
  | some er =>
    match buildSuccessPayload jid er with
    | .ok r => ⟨[r], true⟩
    | .error e =>
      ⟨[send_error_payload jid language_v (.jstr version)
          ("An unexpected error occurred while processing Piston response for job ID "
            ++ pyFormat jid ++ ": " ++ e)
          "feeder_processing_error"
          (.jstr ("Feeder internal error processing Piston response: " ++ e))], true⟩

/-- The status-code dispatch of feeder.py lines 228-278, reached only after
the first call's try block completed without raising: the 429 branch runs
the retry loop (exhaustion publishes piston_rate_limited, a non-429 retry
error publishes piston_api_error_retry, a break falls through to response
processing); the not-ok branch publishes piston_http_error_<status>;
otherwise the response is processed as a success body. -/
def afterStatusChecks (engine : Nat → CallOutcome) (jid : JVal) (lang : String)
    (version : String) (st : Nat) (body : Option JVal) : FeederOut :=
  if st == 429 then
    match retryLoop engine 11 1 1 with
    | .errRetry =>
      ⟨[send_error_payload jid (.jstr lang) (.jstr version)
          ("Piston API error during retry for job ID " ++ pyFormat jid ++ ".")
          "piston_api_error_retry"
          (.jstr "Piston API Error during retry: RequestException")], true⟩
    | .exhausted =>
      ⟨[send_error_payload jid (.jstr lang) (.jstr version)
          ("Failed to execute job ID " ++ pyFormat jid ++ " after 11 rate limit retries.")
          "piston_rate_limited"
          (.jstr "Piston API Error: Too many rate limit retries.")], true⟩
    | .gotResp _ body2 => handle2xx jid (.jstr lang) version body2
  else if !(decide (st < 400)) then
    ⟨[send_error_payload jid (.jstr lang) (.jstr version)
        ("Piston API returned error status " ++ toString st ++ " for job ID "
          ++ pyFormat jid ++ ".")
        ("piston_http_error_" ++ toString st)
        (.jstr ("Piston API Error: Status " ++ toString st))], true⟩
  else handle2xx jid (.jstr lang) version body

/-- The first engine call of feeder.py lines 195-225 and its dispatch.
The try block issues requests.post, then logs f"Recieved {response.json()}"
(line 202) and calls response.raise_for_status() (line 203).  A Timeout
publishes piston_timeout; any other RequestException publishes
piston_connection_error — and both response.json() on a non-JSON body
(requests.exceptions.JSONDecodeError, a RequestException subclass in
requests >= 2.27) and raise_for_status() on any status >= 400 (HTTPError)
raise inside this same try block, so they are caught by the
RequestException clause at line 216.  Only a response below 400 with a JSON
body reaches the status-code dispatch. -/
def execCall (engine : Nat → CallOutcome) (jid : JVal) (lang : String)
    (version : String) : FeederOut :=
  match engine 0 with
  | .timeout =>
    ⟨[send_error_payload jid (.jstr lang) (.jstr version)
        ("Piston API request timed out for job ID " ++ pyFormat jid ++ " after sending.")
        "piston_timeout" (.jstr "Request timed out")], true⟩
  | .connError =>
    ⟨[send_error_payload jid (.jstr lang) (.jstr version)
        ("Piston API connection error for job ID " ++ pyFormat jid ++ ": RequestException")
        "piston_connection_error"
        (.jstr "Piston API connection error: RequestException")], true⟩
  | .resp st body =>
    match body with
    | none =>
      ⟨[send_error_payload jid (.jstr lang) (.jstr version)
          ("Piston API connection error for job ID " ++ pyFormat jid ++ ": JSONDecodeError")
          "piston_connection_error"
          (.jstr "Piston API connection error: JSONDecodeError")], true⟩
    | some bv =>
      if st ≥ 400 then
        ⟨[send_error_payload jid (.jstr lang) (.jstr version)
            ("Piston API connection error for job ID " ++ pyFormat jid ++ ": HTTPError")
            "piston_connection_error"
            (.jstr "Piston API connection error: HTTPError")], true⟩
      else afterStatusChecks engine jid lang version st (some bv)

/-- The parsed-payload path of feeder.py submit (lines 136-173): extract the
fields, coerce the numeric overrides with fallback to the defaults, return
without publishing when job_id, code or language is missing or falsy
(lines 157-159), publish unsupported_language when the registry lookup
fails, and otherwise call the engine.  A truthy non-string language makes
language.lower() raise AttributeError, caught by the outermost except
clause as feeder_error. -/
def submitParsed (cfg : FeederConfig) (engine : Nat → CallOutcome)
    (fields : List (String × JVal)) : FeederOut :=
  let job_id := lookupLast fields "job_id"
  let code := lookupLast fields "code"
  let language := lookupLast fields "language"
  let _memMb := pyIntOr (lookupLast fields "memory_limit") cfg.defaultMemoryLimitMb
  let _ctMs := pyIntOr (lookupLast fields "compile_timeout") cfg.defaultCompileTimeoutMs
  let _rtMs := pyIntOr (lookupLast fields "run_timeout") cfg.defaultRunTimeoutMs
  if !pyTruthyO job_id || !pyTruthyO code || !pyTruthyO language then
    ⟨[], true⟩
  else
    let jid := job_id.getD .jnull
    match language.getD .jnull with
    | .jstr lang =>
      match langLookup cfg.langMap (pyLower lang) with
      | none =>
        ⟨[send_error_payload jid (.jstr lang) .jnull
            ("Unsupported language or alias \x27" ++ lang ++ "\x27 for job ID "
              ++ pyFormat jid ++ ".")
            "unsupported_language"
            (.jstr ("Unsupported language or alias: " ++ lang))], true⟩
      | some version => execCall engine jid lang version
    | lv =>
      ⟨[send_error_payload jid lv .jnull
          ("An unexpected error occurred while processing message for job ID "
            ++ pyFormat jid ++ ": AttributeError")
          "feeder_error"
          (.jstr "Feeder internal error: AttributeError")], true⟩

/-- Model of feeder.py submit: the whole per-message unit of work inside
`async with message.process()`.  A body that does not parse as JSON is
published as feeder_error with empty job id (outer JSONDecodeError clause,
lines 333-342); a body whose JSON is not an object makes payload.get raise
AttributeError, published as feeder_error by the outermost except clause
(lines 344-353); otherwise the parsed path runs.  Every path exits the
context manager normally, so the task message is always acknowledged.
The limit fields of the engine request body (feeder.py lines 175-189) are
not modelled: no claim mentions them, and they do not influence control
flow. -/
def submit (cfg : FeederConfig) (engine : Nat → CallOutcome) (body : String) : FeederOut :=
  match jsonParse body with
  | none =>
    ⟨[send_error_payload (.jstr "") (.jstr "unknown") .jnull
        ("Failed to decode JSON message: " ++ body)
        "feeder_error"
        (.jstr "Feeder internal error: Failed to decode message.")], true⟩
  | some (.jobj fields) => submitParsed cfg engine fields
  | some v =>
    ⟨[send_error_payload (.jstr "") (.jstr "unknown") .jnull
        ("An unexpected error occurred while processing message for job ID None: "
          ++ attrErrTextGet v)
        "feeder_error"
        (.jstr ("Feeder internal error: " ++ attrErrTextGet v))], true⟩

end Feeder

/- ### Derived definitions used by the theorems -/

/-- The missing-field condition of feeder.py line 157 on a raw task body:
the body parses to an object whose job_id, code or language is absent or
falsy.  On such a task the feeder returns from the message context without
publishing. -/
def missing_required (body : String) : Bool :=
  match jsonParse body with
  | some (.jobj fields) =>
    !pyTruthyO (lookupLast fields "job_id") || !pyTruthyO (lookupLast fields "code")
      || !pyTruthyO (lookupLast fields "language")
  | _ => false

/-- Invariant of every ResultMessage the feeder can publish: fail is the
negation of (status is success or error), and the retry-loop statuses are
never produced (the retry loop of feeder.py lines 230-267 is unreachable,
because raise_for_status at line 203 already converted every status of 400
and above into piston_connection_error). -/
def resultInv (r : Feeder.ResultMsg) : Prop :=
  r.fail = !(r.status == "success" || r.status == "error") ∧
  r.status ≠ "piston_rate_limited" ∧ r.status ≠ "piston_api_error_retry"

/-- Total accessor `v[k]` for a JSON object, None outside objects; used to
state properties of stage dictionaries. -/
def jfield (v : JVal) (k : String) : JVal :=
  match v with
  | .jobj fs => (lookupLast fs k).getD .jnull
  | _ => .jnull

/-- Stage-derived payload field as the spec describes it:
the stage's entry when the stage is truthy, None otherwise. -/
def stageFieldSpec (stage : JVal) (k : String) : JVal :=
  if pyTruthy stage then jfield stage k else .jnull

/-- The message prioritization as the spec states it: the run signal if
present, else the compile stderr if present, else the run stderr if
present, else null, with the prefixes the code attaches. -/
def messageSpec (run comp : JVal) : Option String :=
  if pyTruthy run && pyTruthy (jfield run "signal") then
    some ("Signal: " ++ pyFormat (jfield run "signal"))
  else if pyTruthy comp && pyTruthy (jfield comp "stderr") then
    some ("Compile Error: " ++ pyFormat (jfield comp "stderr"))
  else if pyTruthy run && pyTruthy (jfield run "stderr") then
    some ("Runtime Error: " ++ pyFormat (jfield run "stderr"))
  else none

/-- The status derivation as the spec states it: success iff a truthy run
stage carries exit code 0. -/
def statusSpec (run : JVal) : String :=
  if pyTruthy run && pyEqZero (some (jfield run "code")) then "success" else "error"

/-- The stdout string process_feeder_response hashes: the stdout entry when
it is a string, the empty string when it is absent or null, and `none` when
it is present with a non-string value (which makes hashing fail). -/
def stdoutForFlag (payload : List (String × JVal)) : Option String :=
  match lookupLast payload "stdout" with
  | some (.jstr s) => some s
  | some .jnull => some ""
  | none => some ""
  | some _ => none

/- ### Concrete fixtures for counterexamples and witnesses -/

/-- Feeder configuration with the shipped defaults and a one-language
runtime registry. -/
def feederTestCfg : Feeder.FeederConfig := ⟨-1, 10000, 10000, [("python", "3.12.0")]⟩

/-- A well-formed task body. -/
def taskBodyOk : String :=
  "\x7b\"job_id\": \"j1\", \"code\": \"print(1)\", \"language\": \"python\"\x7d"

/-- A task body that parses but has no job_id. -/
def taskBodyMissingId : String := "\x7b\"code\": \"print(1)\", \"language\": \"python\"\x7d"

/-- Engine body for a successful run: exit code 0, stdout captured. -/
def pistonRunOkBody : JVal :=
  .jobj [("language", .jstr "python"), ("version", .jstr "3.12.0"),
         ("run", .jobj [("stdout", .jstr "1\n"), ("stderr", .jstr ""), ("code", .jint 0)])]

/-- Engine body for a failing run: exit code 1 with stderr. -/
def pistonRunFailBody : JVal :=
  .jobj [("language", .jstr "python"), ("version", .jstr "3.12.0"),
         ("run", .jobj [("stdout", .jstr ""), ("stderr", .jstr "boom"), ("code", .jint 1)])]

/-- Engine that always answers 200 with a successful run. -/
def engineOkRun : Nat → Feeder.CallOutcome := fun _ => .resp 200 (some pistonRunOkBody)

/-- Engine that always answers 200 with a failing run. -/
def engineFailRun : Nat → Feeder.CallOutcome := fun _ => .resp 200 (some pistonRunFailBody)

/-- Engine that answers 429 twice and then 200 with a successful run: the
scenario of the claim about rate-limit retries. -/
def engineRateLimited : Nat → Feeder.CallOutcome := fun n =>
  if n < 2 then .resp 429 (some (.jobj [("message", .jstr "Requests limited")]))
  else .resp 200 (some pistonRunOkBody)

/-- Engine that answers 2xx with a body that does not parse as JSON. -/
def engineNonJson : Nat → Feeder.CallOutcome := fun _ => .resp 200 none

/-- A well-formed Fernet key in the model: 44 characters. -/
def validFernetKey : String := "AAAAAAAAAAAAAAAAAAAAAAAAAAAAAAAAAAAAAAAAAAA="

/-- A second, different well-formed Fernet key. -/
def otherFernetKey : String := "BBBBBBBBBBBBBBBBBBBBBBBBBBBBBBBBBBBBBBBBBBB="

/-- Scheduler configuration with both key environment variables absent. -/
def schedCfgNoKeys : Scheduler.SchedulerConfig := ⟨none, none⟩

/-- Scheduler configuration with both keys configured. -/
def schedCfgStd : Scheduler.SchedulerConfig := ⟨some validFernetKey, some "sig-key"⟩

/-- A valid submit request body without settings. -/
def reqBodyNoSettings : Scheduler.ReqBody :=
  .dict (some (.jstr "print(1)")) (some (.jstr "python")) none

/-- A ResultMessage payload resolved before the deadline, stdout "1\n". -/
def resolvedPayloadStd : List (String × JVal) :=
  [("job_id", .jstr "j1"), ("stdout", .jstr "1\n"), ("stderr", .jstr ""),
   ("status", .jstr "success"), ("fail", .jbool false)]

/-- A flat settings object whose memory_limit value is a string: recognized
key, non-numeric value. -/
def settingsStrValObj : String := "\x7b\"memory_limit\": \"512\"\x7d"

/-- A flat settings object with one recognized numeric field and one
unrecognized field. -/
def settingsMixedObj : String := "\x7b\"memory_limit\": 512, \"custom_flag\": 7\x7d"

/-- Specification bundle for one feeder unit of work: acknowledged, a given
number of published messages, all satisfying the publication invariant. -/
def outSpec (o : Feeder.FeederOut) (n : Nat) : Prop :=
  o.acked = true ∧ o.published.length = n ∧ ∀ r ∈ o.published, resultInv r

/- ### Helper lemmas -/

theorem exceptBind_ok {α β : Type} {e : Except String α} {f : α → Except String β} {b : β}
    (h : e >>= f = Except.ok b) : ∃ a, e = Except.ok a ∧ f a = Except.ok b := by
  cases e with
  | error err => simp [Bind.bind, Except.bind] at h
  | ok a => exact ⟨a, rfl, by simpa [Bind.bind, Except.bind] using h⟩

theorem exceptPure_ok {α : Type} {a b : α} (h : (pure a : Except String α) = Except.ok b) :
    a = b := by
  simpa [Pure.pure, Except.pure] using h

theorem buildSuccessPayload_ok (jid er : JVal) (r : Feeder.ResultMsg)
    (h : Feeder.buildSuccessPayload jid er = .ok r) :
    r.fail = false ∧ (r.status = "success" ∨ r.status = "error") := by
  unfold Feeder.buildSuccessPayload at h
  obtain ⟨run, h1, h⟩ := exceptBind_ok h
  obtain ⟨comp, h2, h⟩ := exceptBind_ok h
  obtain ⟨status_str, h3, h⟩ := exceptBind_ok h
  obtain ⟨msg, h4, h⟩ := exceptBind_ok h
  obtain ⟨so, h5, h⟩ := exceptBind_ok h
  obtain ⟨se, h6, h⟩ := exceptBind_ok h
  obtain ⟨co, h7, h⟩ := exceptBind_ok h
  obtain ⟨ce, h8, h⟩ := exceptBind_ok h
  obtain ⟨lv, h9, h⟩ := exceptBind_ok h
  obtain ⟨vv, h10, h⟩ := exceptBind_ok h
  have hr := exceptPure_ok h
  subst hr
  refine ⟨rfl, ?_⟩
  show status_str = "success" ∨ status_str = "error"
  unfold Feeder.stageStatus at h3
  cases hrt : pyTruthy run with
  | false =>
    rw [hrt] at h3
    simp only [Bool.false_eq_true, if_false] at h3
    exact Or.inr (exceptPure_ok h3).symm
  | true =>
    rw [hrt] at h3
    simp only [if_true] at h3
    cases hc : Feeder.jget run "code" with
    | error e => rw [hc] at h3; simp [Except.map] at h3
    | ok c =>
      rw [hc] at h3
      simp only [Except.map, Except.ok.injEq] at h3
      subst h3
      split
      · exact Or.inl rfl
      · exact Or.inr rfl

theorem resultInv_error (jid lang ver : JVal) (msg : String) (status : String) (stderr : JVal)
    (h1 : ((status == "success") || (status == "error")) = false)
    (h3 : status ≠ "piston_rate_limited") (h4 : status ≠ "piston_api_error_retry") :
    resultInv (Feeder.send_error_payload jid lang ver msg status stderr) := by
  unfold resultInv Feeder.send_error_payload
  exact ⟨by simp [h1], h3, h4⟩

theorem resultInv_ok (jid er : JVal) (r : Feeder.ResultMsg)
    (h : Feeder.buildSuccessPayload jid er = .ok r) : resultInv r := by
  obtain ⟨hf, hs⟩ := buildSuccessPayload_ok jid er r h
  unfold resultInv
  rcases hs with hs | hs <;> simp [hf, hs]

theorem outSpec_single (m : Feeder.ResultMsg) (hm : resultInv m) :
    outSpec ⟨[m], true⟩ 1 :=
  ⟨rfl, rfl, by intro r hr; simp only [List.mem_singleton] at hr; subst hr; exact hm⟩

theorem handle2xx_spec (jid lv : JVal) (ver : String) (body : Option JVal) :
    outSpec (Feeder.handle2xx jid lv ver body) 1 := by
  unfold Feeder.handle2xx
  cases body with
  | none =>
    exact outSpec_single _
      (resultInv_error _ _ _ _ "piston_response_error" _ (by decide) (by decide) (by decide))
  | some er =>
    dsimp only
    cases hb : Feeder.buildSuccessPayload jid er with
    | ok r => exact outSpec_single _ (resultInv_ok jid er r hb)
    | error e =>
      exact outSpec_single _
        (resultInv_error _ _ _ _ "feeder_processing_error" _ (by decide) (by decide) (by decide))

theorem afterStatusChecks_spec (engine : Nat → Feeder.CallOutcome) (jid : JVal)
    (lang version : String) (st : Nat) (body : Option JVal) (hst : st < 400) :
    outSpec (Feeder.afterStatusChecks engine jid lang version st body) 1 := by
  unfold Feeder.afterStatusChecks
  have h429 : (st == 429) = false := beq_eq_false_iff_ne.mpr (by omega)
  have hok : decide (st < 400) = true := decide_eq_true hst
  simp only [h429, Bool.false_eq_true, if_false, hok, Bool.not_true, if_true]
  exact handle2xx_spec jid (.jstr lang) version body

theorem execCall_spec (engine : Nat → Feeder.CallOutcome) (jid : JVal)
    (lang version : String) : outSpec (Feeder.execCall engine jid lang version) 1 := by
  unfold Feeder.execCall
  cases engine 0 with
  | timeout =>
    exact outSpec_single _
      (resultInv_error _ _ _ _ "piston_timeout" _ (by decide) (by decide) (by decide))
  | connError =>
    exact outSpec_single _
      (resultInv_error _ _ _ _ "piston_connection_error" _ (by decide) (by decide) (by decide))
  | resp st body =>
    dsimp only
    cases body with
    | none =>
      exact outSpec_single _
        (resultInv_error _ _ _ _ "piston_connection_error" _ (by decide) (by decide) (by decide))
    | some bv =>
      dsimp only
      by_cases hst : st ≥ 400
      · simp only [if_pos hst]
        exact outSpec_single _
          (resultInv_error _ _ _ _ "piston_connection_error" _ (by decide) (by decide) (by decide))
      · simp only [if_neg hst]
        exact afterStatusChecks_spec engine jid lang version st (some bv) (by omega)

theorem submitParsed_spec (cfg : Feeder.FeederConfig) (engine : Nat → Feeder.CallOutcome)
    (fields : List (String × JVal)) :
    outSpec (Feeder.submitParsed cfg engine fields)
      (if (!pyTruthyO (lookupLast fields "job_id") || !pyTruthyO (lookupLast fields "code")
          || !pyTruthyO (lookupLast fields "language")) then 0 else 1) := by
  unfold Feeder.submitParsed
  by_cases hmiss : (!pyTruthyO (lookupLast fields "job_id") || !pyTruthyO (lookupLast fields "code")
      || !pyTruthyO (lookupLast fields "language")) = true
  · simp only [hmiss, if_true]
    exact ⟨rfl, rfl, by intro r hr; simp at hr⟩
  · have hmiss' : (!pyTruthyO (lookupLast fields "job_id") || !pyTruthyO (lookupLast fields "code")
        || !pyTruthyO (lookupLast fields "language")) = false := by
      simpa using hmiss
    simp only [hmiss', Bool.false_eq_true, if_false]
    cases hl : (lookupLast fields "language").getD .jnull with
    | jstr lang =>
      dsimp only
      cases hv : Feeder.langLookup cfg.langMap (pyLower lang) with
      | none =>
        exact outSpec_single _
          (resultInv_error _ _ _ _ "unsupported_language" _ (by decide) (by decide) (by decide))
      | some version => exact execCall_spec engine _ lang version
    | jnull =>
      exact outSpec_single _
        (resultInv_error _ _ _ _ "feeder_error" _ (by decide) (by decide) (by decide))
    | jbool b =>
      exact outSpec_single _
        (resultInv_error _ _ _ _ "feeder_error" _ (by decide) (by decide) (by decide))
    | jint n =>
      exact outSpec_single _
        (resultInv_error _ _ _ _ "feeder_error" _ (by decide) (by decide) (by decide))
    | jarr xs =>
      exact outSpec_single _
        (resultInv_error _ _ _ _ "feeder_error" _ (by decide) (by decide) (by decide))
    | jobj fs =>
      exact outSpec_single _
        (resultInv_error _ _ _ _ "feeder_error" _ (by decide) (by decide) (by decide))

theorem submit_spec (cfg : Feeder.FeederConfig) (engine : Nat → Feeder.CallOutcome)
    (body : String) :
    outSpec (Feeder.submit cfg engine body) (if missing_required body then 0 else 1) := by
  unfold Feeder.submit missing_required
  cases hp : jsonParse body with
  | none =>
    exact outSpec_single _
      (resultInv_error _ _ _ _ "feeder_error" _ (by decide) (by decide) (by decide))
  | some v =>
    cases v with
    | jobj fields => exact submitParsed_spec cfg engine fields
    | jnull =>
      exact outSpec_single _
        (resultInv_error _ _ _ _ "feeder_error" _ (by decide) (by decide) (by decide))
    | jbool b =>
      exact outSpec_single _
        (resultInv_error _ _ _ _ "feeder_error" _ (by decide) (by decide) (by decide))
    | jint n =>
      exact outSpec_single _
        (resultInv_error _ _ _ _ "feeder_error" _ (by decide) (by decide) (by decide))
    | jstr s =>
      exact outSpec_single _
        (resultInv_error _ _ _ _ "feeder_error" _ (by decide) (by decide) (by decide))
    | jarr xs =>
      exact outSpec_single _
        (resultInv_error _ _ _ _ "feeder_error" _ (by decide) (by decide) (by decide))

theorem stageField_welltyped (stage : JVal) (k : String)
    (h : pyTruthy stage = true → ∃ fs, stage = .jobj fs) :
    Feeder.stageField stage k = .ok (stageFieldSpec stage k) := by
  unfold Feeder.stageField stageFieldSpec
  by_cases ht : pyTruthy stage = true
  · obtain ⟨fs, hfs⟩ := h ht
    subst hfs
    simp [ht, Feeder.jget, jfield]
  · simp [ht, Pure.pure, Except.pure]

theorem stageStatus_welltyped (run : JVal)
    (h : pyTruthy run = true → ∃ fs, run = .jobj fs) :
    Feeder.stageStatus run = .ok (statusSpec run) := by
  unfold Feeder.stageStatus statusSpec
  by_cases ht : pyTruthy run = true
  · obtain ⟨fs, hfs⟩ := h ht
    subst hfs
    simp [ht, Feeder.jget, jfield, Except.map]
  · simp [ht, Pure.pure, Except.pure]

theorem messageChain_welltyped (run comp : JVal)
    (hrun : pyTruthy run = true → ∃ fs, run = .jobj fs)
    (hcomp : pyTruthy comp = true → ∃ fs, comp = .jobj fs) :
    Feeder.messageChain run comp = .ok (messageSpec run comp) := by
  unfold Feeder.messageChain messageSpec
  by_cases hr : pyTruthy run = true
  · obtain ⟨rfs, hre⟩ := hrun hr
    subst hre
    by_cases hc : pyTruthy comp = true
    · obtain ⟨cfs, hce⟩ := hcomp hc
      subst hce
      simp only [hr, hc, if_true, Feeder.jget, jfield, Bind.bind, Except.bind, Pure.pure,
        Except.pure]
      by_cases hsig : pyTruthy ((lookupLast rfs "signal").getD .jnull) = true <;>
        by_cases hcs : pyTruthy ((lookupLast cfs "stderr").getD .jnull) = true <;>
        by_cases hrs : pyTruthy ((lookupLast rfs "stderr").getD .jnull) = true <;>
        simp [hsig, hcs, hrs]
    · simp only [hr, hc, if_true, Bool.false_eq_true, if_false, Feeder.jget, jfield,
        Bind.bind, Except.bind, Pure.pure, Except.pure]
      by_cases hsig : pyTruthy ((lookupLast rfs "signal").getD .jnull) = true <;>
        by_cases hrs : pyTruthy ((lookupLast rfs "stderr").getD .jnull) = true <;>
        simp [hsig, hrs, hc]
  · by_cases hc : pyTruthy comp = true
    · obtain ⟨cfs, hce⟩ := hcomp hc
      subst hce
      simp only [hr, hc, if_true, Bool.false_eq_true, if_false, Feeder.jget, jfield,
        Bind.bind, Except.bind, Pure.pure, Except.pure]
      by_cases hcs : pyTruthy ((lookupLast cfs "stderr").getD .jnull) = true <;>
        simp [hcs, hr]
    · simp [hr, hc, Bind.bind, Except.bind, Pure.pure, Except.pure]

theorem buildSuccessPayload_welltyped (jid : JVal) (bf : List (String × JVal))
    (hrun : pyTruthy (jfield (.jobj bf) "run") = true →
      ∃ fs, jfield (.jobj bf) "run" = .jobj fs)
    (hcomp : pyTruthy (jfield (.jobj bf) "compile") = true →
      ∃ fs, jfield (.jobj bf) "compile" = .jobj fs) :
    Feeder.buildSuccessPayload jid (.jobj bf) = .ok
      { job_id := jid,
        stdout := stageFieldSpec (jfield (.jobj bf) "run") "stdout",
        stderr := stageFieldSpec (jfield (.jobj bf) "run") "stderr",
        compile_output := stageFieldSpec (jfield (.jobj bf) "compile") "output",
        compile_stderr := stageFieldSpec (jfield (.jobj bf) "compile") "stderr",
        language := jfield (.jobj bf) "language",
        version := jfield (.jobj bf) "version",
        status := statusSpec (jfield (.jobj bf) "run"),
        message := ((messageSpec (jfield (.jobj bf) "run")
          (jfield (.jobj bf) "compile")).map JVal.jstr).getD .jnull,
        fail := false } := by
  unfold Feeder.buildSuccessPayload
  have h1 : Feeder.jget (.jobj bf) "run" = .ok (jfield (.jobj bf) "run") := rfl
  have h2 : Feeder.jget (.jobj bf) "compile" = .ok (jfield (.jobj bf) "compile") := rfl
  have h3 : Feeder.jget (.jobj bf) "language" = .ok (jfield (.jobj bf) "language") := rfl
  have h4 : Feeder.jget (.jobj bf) "version" = .ok (jfield (.jobj bf) "version") := rfl
  rw [h1, h2]
  simp only [Bind.bind, Except.bind]
  rw [stageStatus_welltyped _ hrun, messageChain_welltyped _ _ hrun hcomp,
    stageField_welltyped _ "stdout" hrun, stageField_welltyped _ "stderr" hrun,
    stageField_welltyped _ "output" hcomp, stageField_welltyped _ "stderr" hcomp, h3, h4]
  simp [Pure.pure, Except.pure]

theorem submit_wellformed_2xx (cfg : Feeder.FeederConfig) (engine : Nat → Feeder.CallOutcome)
    (body : String) (fields : List (String × JVal)) (lang version : String) (st : Nat)
    (bodyVal : JVal)
    (hp : jsonParse body = some (.jobj fields))
    (hjid : pyTruthyO (lookupLast fields "job_id") = true)
    (hcode : pyTruthyO (lookupLast fields "code") = true)
    (hlang : lookupLast fields "language" = some (.jstr lang))
    (hlne : lang ≠ "")
    (hlk : Feeder.langLookup cfg.langMap (pyLower lang) = some version)
    (heng : engine 0 = .resp st (some bodyVal))
    (hst1 : 200 ≤ st) (hst2 : st < 300) :
    Feeder.submit cfg engine body =
      Feeder.handle2xx ((lookupLast fields "job_id").getD .jnull) (.jstr lang) version
        (some bodyVal) := by
  unfold Feeder.submit
  rw [hp]
  dsimp only
  unfold Feeder.submitParsed
  dsimp only
  have hcond : (!pyTruthyO (lookupLast fields "job_id") || !pyTruthyO (lookupLast fields "code")
      || !pyTruthyO (lookupLast fields "language")) = false := by
    rw [hjid, hcode, hlang]
    simp [pyTruthyO, pyTruthy, hlne]
  rw [hcond]
  simp only [Bool.false_eq_true, if_false]
  rw [hlang]
  simp only [Option.getD]
  rw [hlk]
  unfold Feeder.execCall
  rw [heng]
  simp only [ge_iff_le, if_neg (by omega : ¬ (400 : Nat) ≤ st)]
  unfold Feeder.afterStatusChecks
  have h429 : (st == 429) = false := beq_eq_false_iff_ne.mpr (by omega)
  have hok : decide (st < 400) = true := decide_eq_true (by omega)
  simp only [h429, Bool.false_eq_true, if_false, hok, Bool.not_true, if_true]

/-- C1 (counterexample): a parsed 2xx engine body whose run stage exits
nonzero is published with status "error" and fail False, refuting the claim
that fail is true whenever status is not "success". -/
theorem c1_error_status_fail_false_counterexample :
    (Feeder.submit feederTestCfg engineFailRun taskBodyOk).published.map
      (fun r => (r.status, r.fail)) = [("error", false)] := rfl

/-- C1 (amended): for every ResultMessage the feeder publishes, fail is the
negation of (status is "success" or status is "error"): the error path
always sets fail True, and a ResultMessage built from a parsed 2xx body has
fail False even when its status is "error". -/
theorem c1_fail_iff_not_success_or_error (cfg : Feeder.FeederConfig)
    (engine : Nat → Feeder.CallOutcome) (body : String) (r : Feeder.ResultMsg)
    (hr : r ∈ (Feeder.submit cfg engine body).published) :
    r.fail = !(r.status == "success" || r.status == "error") :=
  ((submit_spec cfg engine body).2.2 r hr).1

/-- C1 (witness): the amended statement applied to the feeder_error message
published for a non-JSON task body. -/
theorem c1_fail_iff_not_success_or_error_witness :
    (Feeder.send_error_payload (.jstr "") (.jstr "unknown") .jnull
        "Failed to decode JSON message: not json" "feeder_error"
        (.jstr "Feeder internal error: Failed to decode message.")).fail =
      !((Feeder.send_error_payload (.jstr "") (.jstr "unknown") .jnull
          "Failed to decode JSON message: not json" "feeder_error"
          (.jstr "Feeder internal error: Failed to decode message.")).status == "success" ||
        (Feeder.send_error_payload (.jstr "") (.jstr "unknown") .jnull
          "Failed to decode JSON message: not json" "feeder_error"
          (.jstr "Feeder internal error: Failed to decode message.")).status == "error") :=
  c1_fail_iff_not_success_or_error feederTestCfg engineOkRun "not json" _
    (List.mem_singleton.mpr rfl)

/-- C2 (counterexample): a task payload that parses but lacks job_id is
acknowledged with no ResultMessage published, refuting the claim that every
exit path publishes exactly one ResultMessage before acknowledging. -/
theorem c2_missing_fields_counterexample :
    (Feeder.submit feederTestCfg engineOkRun taskBodyMissingId).published = [] ∧
    (Feeder.submit feederTestCfg engineOkRun taskBodyMissingId).acked = true :=
  ⟨rfl, rfl⟩

/-- C2 (amended): every task message is acknowledged, and task processing
publishes exactly one ResultMessage on every exit path except the
validation return for a parsed payload whose job_id, code or language is
missing or falsy, which acknowledges without publishing. -/
theorem c2_exactly_one_publish_except_missing_fields (cfg : Feeder.FeederConfig)
    (engine : Nat → Feeder.CallOutcome) (body : String) :
    (Feeder.submit cfg engine body).acked = true ∧
    (Feeder.submit cfg engine body).published.length =
      (if missing_required body then 0 else 1) :=
  ⟨(submit_spec cfg engine body).1, (submit_spec cfg engine body).2.1⟩

/-- C5 (theorem at the failing input, and the dead-code fact): an engine
answering 429 twice and then 200 does not succeed — the very first 429
raises HTTPError inside the first-call try block (feeder.py line 203) and
is published as piston_connection_error; and no reachable path of the
feeder ever publishes piston_rate_limited or piston_api_error_retry, the
retry loop of lines 230-267 being dead code. -/
theorem c5_rate_limit_retry_unreachable :
    ((Feeder.submit feederTestCfg engineRateLimited taskBodyOk).published.map
        (fun r => (r.status, r.fail)) = [("piston_connection_error", true)]) ∧
    ∀ (cfg : Feeder.FeederConfig) (engine : Nat → Feeder.CallOutcome) (body : String),
      ∀ r ∈ (Feeder.submit cfg engine body).published,
        r.status ≠ "piston_rate_limited" ∧ r.status ≠ "piston_api_error_retry" :=
  ⟨rfl, fun cfg engine body r hr => ((submit_spec cfg engine body).2.2 r hr).2⟩

/-- C5 (witness): the dead-code fact applied to the message published in
the two-429s-then-200 scenario. -/
theorem c5_rate_limit_retry_unreachable_witness :
    (Feeder.send_error_payload (.jstr "j1") (.jstr "python") (.jstr "3.12.0")
        ("Piston API connection error for job ID j1: HTTPError")
        "piston_connection_error"
        (.jstr "Piston API connection error: HTTPError")).status ≠ "piston_rate_limited" ∧
    (Feeder.send_error_payload (.jstr "j1") (.jstr "python") (.jstr "3.12.0")
        ("Piston API connection error for job ID j1: HTTPError")
        "piston_connection_error"
        (.jstr "Piston API connection error: HTTPError")).status ≠ "piston_api_error_retry" :=
  c5_rate_limit_retry_unreachable.2 feederTestCfg engineRateLimited taskBodyOk _
    (List.mem_singleton.mpr rfl)

/-- C6 (theorem): the malformed-JSON part of the claim fails — a 2xx
response whose body does not parse as JSON is published as
piston_connection_error (requests >= 2.27: the eager response.json() at
feeder.py line 202 raises a JSONDecodeError that is a RequestException,
caught at line 216; with older requests it would surface as feeder_error),
never as piston_response_error.  The derivation part of the claim holds:
for every first-call 2xx response with a parsed JSON object body and
well-typed stages, exactly one ResultMessage is published, with status
success iff a truthy run stage has exit code 0, the message prioritized as
run signal, else compile stderr, else run stderr, else null (with the
code's prefixes), and fail False. -/
theorem c6_twoxx_result_derivation :
    ((Feeder.submit feederTestCfg engineNonJson taskBodyOk).published.map
        (fun r => (r.status, r.fail)) = [("piston_connection_error", true)]) ∧
    ∀ (cfg : Feeder.FeederConfig) (engine : Nat → Feeder.CallOutcome) (body : String)
      (fields : List (String × JVal)) (lang version : String) (st : Nat)
      (bf : List (String × JVal)),
      jsonParse body = some (.jobj fields) →
      pyTruthyO (lookupLast fields "job_id") = true →
      pyTruthyO (lookupLast fields "code") = true →
      lookupLast fields "language" = some (.jstr lang) →
      lang ≠ "" →
      Feeder.langLookup cfg.langMap (pyLower lang) = some version →
      engine 0 = .resp st (some (.jobj bf)) →
      200 ≤ st → st < 300 →
      (pyTruthy (jfield (.jobj bf) "run") = true →
        ∃ fs, jfield (.jobj bf) "run" = .jobj fs) →
      (pyTruthy (jfield (.jobj bf) "compile") = true →
        ∃ fs, jfield (.jobj bf) "compile" = .jobj fs) →
      ∃ r, (Feeder.submit cfg engine body).published = [r] ∧
        r.status = statusSpec (jfield (.jobj bf) "run") ∧
        r.message = ((messageSpec (jfield (.jobj bf) "run")
          (jfield (.jobj bf) "compile")).map JVal.jstr).getD .jnull ∧
        r.fail = false := by
  refine ⟨rfl, ?_⟩
  intro cfg engine body fields lang version st bf hp hjid hcode hlang hlne hlk heng hst1 hst2
    hrun hcomp
  rw [submit_wellformed_2xx cfg engine body fields lang version st (.jobj bf)
    hp hjid hcode hlang hlne hlk heng hst1 hst2]
  unfold Feeder.handle2xx
  dsimp only
  rw [buildSuccessPayload_welltyped _ bf hrun hcomp]
  exact ⟨_, rfl, rfl, rfl, rfl⟩

/-- C6 (witness): the derivation applied to a concrete successful run:
exit code 0, no signal, no compile stage, empty run stderr. -/
theorem c6_twoxx_result_derivation_witness :
    (Feeder.submit feederTestCfg engineOkRun taskBodyOk).published.map
      (fun r => (r.status, r.message, r.fail)) = [("success", JVal.jnull, false)] := by
  obtain ⟨r, hpub, hst, hmsg, hfail⟩ :=
    c6_twoxx_result_derivation.2 feederTestCfg engineOkRun taskBodyOk
      [("job_id", .jstr "j1"), ("code", .jstr "print(1)"), ("language", .jstr "python")]
      "python" "3.12.0" 200
      [("language", .jstr "python"), ("version", .jstr "3.12.0"),
       ("run", .jobj [("stdout", .jstr "1\n"), ("stderr", .jstr ""), ("code", .jint 0)])]
      rfl rfl rfl rfl (by decide) rfl rfl (by omega) (by omega)
      (fun _ => ⟨[("stdout", .jstr "1\n"), ("stderr", .jstr ""), ("code", .jint 0)], rfl⟩)
      (fun h => by cases h)
  rw [hpub, List.map_singleton, hst, hmsg, hfail]
  rfl

theorem encryption_key_never_none (c : Scheduler.SchedulerConfig) :
    (Scheduler.ENCRYPTION_KEY c).isNone = false := by
  unfold Scheduler.ENCRYPTION_KEY Scheduler.os_getenv
  cases c.encKeyEnv <;> rfl

theorem signature_key_never_none (c : Scheduler.SchedulerConfig) :
    (Scheduler.SIGNATURE_KEY c).isNone = false := by
  unfold Scheduler.SIGNATURE_KEY Scheduler.os_getenv
  cases c.sigKeyEnv <;> rfl

theorem process_feeder_response_str (k : String) (payload : List (String × JVal)) (s : String)
    (hs : stdoutForFlag payload = some s) :
    Scheduler.process_feeder_response (some k) payload = .ok ⟨hmacSha256Hex k s⟩ := by
  unfold Scheduler.process_feeder_response
  unfold stdoutForFlag at hs
  cases h : lookupLast payload "stdout" with
  | none =>
    rw [h] at hs
    cases hs
    rfl
  | some v =>
    rw [h] at hs
    cases v with
    | jnull => cases hs; rfl
    | jstr t => cases hs; rfl
    | jbool b => cases hs
    | jint n => cases hs
    | jarr xs => cases hs
    | jobj fs => cases hs

theorem submit_code_resolved_200 (env : Scheduler.SubmitEnv) (jobId : String)
    (pending0 : List String) (c l : JVal) (payload : List (String × JVal)) (k s : String)
    (hb : env.brokerUp = true)
    (hreq : env.req = .dict (some c) (some l) none)
    (hc : pyTruthy c = true) (hl : pyTruthy l = true)
    (hw : env.wait = .resolved payload)
    (hk : Scheduler.SIGNATURE_KEY env.cfg = some k)
    (hs : stdoutForFlag payload = some s) :
    Scheduler.submit_code env jobId pending0 =
      ⟨⟨200, some (hmacSha256Hex k s)⟩, some ⟨jobId, c, l, ⟨none, none, none⟩⟩, pending0⟩ := by
  unfold Scheduler.submit_code
  rw [hb]
  simp only [Bool.not_true, Bool.false_eq_true, if_false,
    encryption_key_never_none, signature_key_never_none, Bool.or_self]
  rw [hreq]
  dsimp only
  simp only [pyTruthyO, hc, hl, Bool.not_true, Bool.or_self, Bool.false_eq_true, if_false]
  unfold Scheduler.publishAndWait
  rw [hw]
  dsimp only
  rw [hk, process_feeder_response_str k payload s hs]
  dsimp only [Option.getD]
  rw [List.erase_cons_head]

/-- C3 (theorem at the failing input): with neither ENCRYPTION_KEY nor
SIGNATURE_KEY in the environment, both module globals default to the empty
string — never None — so the 500 guard of scheduler.py line 294 cannot
fire: a valid submission is accepted, published, and answered 200 with a
flag keyed by the empty string (or 504 on timeout), refuting the claim that
every call answers 500. -/
theorem c3_missing_keys_still_serves :
    Scheduler.ENCRYPTION_KEY schedCfgNoKeys = some "" ∧
    Scheduler.SIGNATURE_KEY schedCfgNoKeys = some "" ∧
    (Scheduler.submit_code ⟨true, schedCfgNoKeys, reqBodyNoSettings,
        .resolved resolvedPayloadStd⟩ "job-1" []).response =
      ⟨200, some (Hasher.generate_flag "" "1\n")⟩ ∧
    (Scheduler.submit_code ⟨true, schedCfgNoKeys, reqBodyNoSettings,
        .timedOut⟩ "job-1" []).response.statusCode = 504 :=
  ⟨rfl, rfl, rfl, rfl⟩

/-- C4 (confirmed): when the wait resolves before the deadline, the 200
response carries a flag equal to the hex HMAC-SHA256 of the stdout string
under the signature key — the very value the standalone generate_flag
utility computes for the same key and stdout (absent or null stdout hashes
as the empty string, handled by stdoutForFlag). -/
theorem c4_flag_equals_generate_flag (env : Scheduler.SubmitEnv) (jobId : String)
    (pending0 : List String) (c l : JVal) (payload : List (String × JVal)) (k s : String)
    (hb : env.brokerUp = true)
    (hreq : env.req = .dict (some c) (some l) none)
    (hc : pyTruthy c = true) (hl : pyTruthy l = true)
    (hw : env.wait = .resolved payload)
    (hk : Scheduler.SIGNATURE_KEY env.cfg = some k)
    (hs : stdoutForFlag payload = some s) :
    (Scheduler.submit_code env jobId pending0).response =
      ⟨200, some (Hasher.generate_flag k s)⟩ ∧
    Hasher.generate_flag k s = bytesToHex (hmacSha256 (utf8Bytes k) (utf8Bytes s)) := by
  rw [submit_code_resolved_200 env jobId pending0 c l payload k s hb hreq hc hl hw hk hs]
  exact ⟨rfl, rfl⟩

/-- C4 (witness): the flag equality at a concrete resolved submission with
stdout "1\n" under key "sig-key". -/
theorem c4_flag_equals_generate_flag_witness :
    (Scheduler.submit_code ⟨true, schedCfgStd, reqBodyNoSettings,
        .resolved resolvedPayloadStd⟩ "job-1" []).response =
      ⟨200, some (Hasher.generate_flag "sig-key" "1\n")⟩ ∧
    Hasher.generate_flag "sig-key" "1\n" =
      bytesToHex (hmacSha256 (utf8Bytes "sig-key") (utf8Bytes "1\n")) :=
  c4_flag_equals_generate_flag ⟨true, schedCfgStd, reqBodyNoSettings,
      .resolved resolvedPayloadStd⟩ "job-1" [] (.jstr "print(1)") (.jstr "python")
    resolvedPayloadStd "sig-key" "1\n" rfl rfl (by decide) (by decide) rfl rfl rfl

/-- C7 (counterexample): a settings object carrying memory_limit with a
string value, encrypted under the correct key, decrypts and parses — but
process_settings drops the field because of the isinstance((int, float))
check, so the recognized field present in the object is not recovered,
refuting the claim as stated. -/
theorem c7_nonnumeric_override_dropped_counterexample :
    jsonParse settingsStrValObj = some (.jobj [("memory_limit", .jstr "512")]) ∧
    Settings.encrypt_settings_json validFernetKey settingsStrValObj =
      .ok (.tok validFernetKey settingsStrValObj) ∧
    Scheduler.process_settings (some validFernetKey)
        (.tok validFernetKey settingsStrValObj) = .ok ⟨none, none, none⟩ :=
  ⟨rfl, rfl, rfl⟩

/-- C7 (amended): for every flat JSON object encrypted into a token with
the correct key, process_settings recovers exactly the recognized override
fields memory_limit, compile_timeout and run_timeout that are present in
the object with numeric values (int, or bool as a subclass of int; a
recognized field with a non-numeric value is dropped), as truncated ints,
and silently ignores every unrecognized key. -/
theorem c7_settings_roundtrip (key s : String) (fields : List (String × JVal))
    (h : jsonParse s = some (.jobj fields)) :
    Settings.encrypt_settings_json key s = .ok (.tok key s) ∧
    Scheduler.process_settings (some key) (.tok key s) =
      .ok ⟨Scheduler.numField fields "memory_limit",
           Scheduler.numField fields "compile_timeout",
           Scheduler.numField fields "run_timeout"⟩ := by
  constructor
  · unfold Settings.encrypt_settings_json
    rw [h]
  · unfold Scheduler.process_settings
    have hd : fernetDecrypt key (.tok key s) = some s := by
      unfold fernetDecrypt
      simp
    dsimp only
    rw [hd]
    dsimp only
    rw [h]

/-- C7 (witness): the round trip applied to a concrete object with one
numeric recognized field and one unrecognized field. -/
theorem c7_settings_roundtrip_witness :
    Settings.encrypt_settings_json validFernetKey settingsMixedObj =
      .ok (.tok validFernetKey settingsMixedObj) ∧
    Scheduler.process_settings (some validFernetKey)
        (.tok validFernetKey settingsMixedObj) = .ok ⟨some 512, none, none⟩ :=
  have h := c7_settings_roundtrip validFernetKey settingsMixedObj
    [("memory_limit", .jint 512), ("custom_flag", .jint 7)] rfl
  ⟨h.1, h.2⟩

/-- C8 (confirmed): a submission whose wait hits the deadline answers 504
and leaves the pending registry exactly as it was (the handle inserted for
its job id is removed); and a ResultMessage arriving for a job id with no
pending handle is acknowledged and dropped by the result consumer without
resolving anything or changing the registry. -/
theorem c8_timeout_504_and_late_drop (env : Scheduler.SubmitEnv) (jobId : String)
    (pending0 : List String) (c l : JVal) (pending : List String) (body : String)
    (fields : List (String × JVal)) (j : String)
    (hb : env.brokerUp = true)
    (hreq : env.req = .dict (some c) (some l) none)
    (hc : pyTruthy c = true) (hl : pyTruthy l = true)
    (hw : env.wait = .timedOut)
    (hp : jsonParse body = some (.jobj fields))
    (hj : lookupLast fields "job_id" = some (.jstr j))
    (hnot : pending.contains j = false) :
    (Scheduler.submit_code env jobId pending0).response.statusCode = 504 ∧
    (Scheduler.submit_code env jobId pending0).pendingAfter = pending0 ∧
    Scheduler.consume_results_step pending body = ⟨pending, none, true⟩ := by
  have hmain : Scheduler.submit_code env jobId pending0 =
      ⟨⟨504, none⟩, some ⟨jobId, c, l, ⟨none, none, none⟩⟩, pending0⟩ := by
    unfold Scheduler.submit_code
    rw [hb]
    simp only [Bool.not_true, Bool.false_eq_true, if_false,
      encryption_key_never_none, signature_key_never_none, Bool.or_self]
    rw [hreq]
    dsimp only
    simp only [pyTruthyO, hc, hl, Bool.not_true, Bool.or_self, Bool.false_eq_true, if_false]
    unfold Scheduler.publishAndWait
    rw [hw]
    dsimp only [Option.getD]
    rw [List.erase_cons_head]
  refine ⟨by rw [hmain], by rw [hmain], ?_⟩
  unfold Scheduler.consume_results_step
  rw [hp]
  dsimp only
  rw [hj]
  dsimp only
  simp only [hnot, Bool.false_eq_true, if_false]

/-- C8 (witness): the statement at a concrete timed-out submission and a
concrete late ResultMessage for an unknown job id. -/
theorem c8_timeout_504_and_late_drop_witness :
    (Scheduler.submit_code ⟨true, schedCfgStd, reqBodyNoSettings, .timedOut⟩
        "job-1" ["other"]).response.statusCode = 504 ∧
    (Scheduler.submit_code ⟨true, schedCfgStd, reqBodyNoSettings, .timedOut⟩
        "job-1" ["other"]).pendingAfter = ["other"] ∧
    Scheduler.consume_results_step ["other"] "\x7b\"job_id\": \"j9\"\x7d" =
      ⟨["other"], none, true⟩ :=
  c8_timeout_504_and_late_drop ⟨true, schedCfgStd, reqBodyNoSettings, .timedOut⟩
    "job-1" ["other"] (.jstr "print(1)") (.jstr "python") ["other"]
    "\x7b\"job_id\": \"j9\"\x7d" [("job_id", .jstr "j9")] "j9"
    rfl rfl (by decide) (by decide) rfl rfl rfl rfl

/-- C9 (confirmed): a settings string that no available cipher key
decrypts — produced under a different key, or an ordinary corrupted
string — always makes process_settings raise the ValueError the handler
catches, so the submit endpoint answers 400 and publishes nothing; the
model is total, so no exception propagates. -/
theorem c9_undecryptable_settings_400 (env : Scheduler.SubmitEnv) (jobId : String)
    (pending0 : List String) (c l : JVal) (ss : SettingsStr)
    (hb : env.brokerUp = true)
    (hreq : env.req = .dict (some c) (some l) (some (.str ss)))
    (hc : pyTruthy c = true) (hl : pyTruthy l = true)
    (hdec : ∀ k, Scheduler.fernet_cipher env.cfg = some k → fernetDecrypt k ss = none) :
    (Scheduler.submit_code env jobId pending0).response.statusCode = 400 ∧
    (Scheduler.submit_code env jobId pending0).publishedTask = none := by
  unfold Scheduler.submit_code
  rw [hb]
  simp only [Bool.not_true, Bool.false_eq_true, if_false,
    encryption_key_never_none, signature_key_never_none, Bool.or_self]
  rw [hreq]
  dsimp only
  simp only [pyTruthyO, hc, hl, Bool.not_true, Bool.or_self, Bool.false_eq_true, if_false]
  cases hcip : Scheduler.fernet_cipher env.cfg with
  | none =>
    unfold Scheduler.process_settings
    exact ⟨rfl, rfl⟩
  | some k =>
    unfold Scheduler.process_settings
    dsimp only
    rw [hdec k hcip]
    exact ⟨rfl, rfl⟩

/-- C9 (witness): 400 for a token produced under a different key, at a
concrete configuration. -/
theorem c9_undecryptable_settings_400_witness :
    (Scheduler.submit_code ⟨true, schedCfgStd,
        .dict (some (.jstr "print(1)")) (some (.jstr "python"))
          (some (.str (.tok otherFernetKey "\x7b\x7d"))), .timedOut⟩
      "job-1" []).response.statusCode = 400 ∧
    (Scheduler.submit_code ⟨true, schedCfgStd,
        .dict (some (.jstr "print(1)")) (some (.jstr "python"))
          (some (.str (.tok otherFernetKey "\x7b\x7d"))), .timedOut⟩
      "job-1" []).publishedTask = none :=
  c9_undecryptable_settings_400 _ "job-1" [] (.jstr "print(1)") (.jstr "python")
    (.tok otherFernetKey "\x7b\x7d") rfl rfl (by decide) (by decide)
    (fun k hk => by
      cases hk
      rfl)

/-- C10 (confirmed): process_feeder_response never raises for a dict input
and a configured (non-None) signature key: it always returns a flag
response; when the stdout entry is a non-string, non-null value the HMAC
update raises AttributeError inside the try block and the result flag is
the ERROR_HASHING_FAILED string (not a valid HMAC of anything), and
otherwise the flag is the hex HMAC-SHA256 of the stdout string. -/
theorem c10_process_feeder_response_total (k : String) (msg : List (String × JVal)) :
    ∃ r, Scheduler.process_feeder_response (some k) msg = .ok r ∧
      (stdoutForFlag msg = none → ∃ t, r.flag = "ERROR_HASHING_FAILED: " ++ t) ∧
      (∀ s, stdoutForFlag msg = some s → r.flag = hmacSha256Hex k s) := by
  unfold Scheduler.process_feeder_response stdoutForFlag
  cases h : lookupLast msg "stdout" with
  | none =>
    exact ⟨⟨hmacSha256Hex k ""⟩, rfl, fun hcon => (by cases hcon),
      fun s hs => (by cases hs; rfl)⟩
  | some v =>
    cases v with
    | jnull =>
      exact ⟨⟨hmacSha256Hex k ""⟩, rfl, fun hcon => (by cases hcon),
        fun s hs => (by cases hs; rfl)⟩
    | jstr t =>
      exact ⟨⟨hmacSha256Hex k t⟩, rfl, fun hcon => (by cases hcon),
        fun s hs => (by cases hs; rfl)⟩
    | jbool b =>
      exact ⟨⟨"ERROR_HASHING_FAILED: " ++ attrErrTextEncode (.jbool b)⟩, rfl,
        fun _ => ⟨attrErrTextEncode (.jbool b), rfl⟩, fun s hs => (by cases hs)⟩
    | jint n =>
      exact ⟨⟨"ERROR_HASHING_FAILED: " ++ attrErrTextEncode (.jint n)⟩, rfl,
        fun _ => ⟨attrErrTextEncode (.jint n), rfl⟩, fun s hs => (by cases hs)⟩
    | jarr xs =>
      exact ⟨⟨"ERROR_HASHING_FAILED: " ++ attrErrTextEncode (.jarr xs)⟩, rfl,
        fun _ => ⟨attrErrTextEncode (.jarr xs), rfl⟩, fun s hs => (by cases hs)⟩
    | jobj fs =>
      exact ⟨⟨"ERROR_HASHING_FAILED: " ++ attrErrTextEncode (.jobj fs)⟩, rfl,
        fun _ => ⟨attrErrTextEncode (.jobj fs), rfl⟩, fun s hs => (by cases hs)⟩

/-- C10 (witness): the non-string stdout case at a concrete input: the
returned flag begins with ERROR_HASHING_FAILED. -/
theorem c10_process_feeder_response_total_witness :
    ∃ r, Scheduler.process_feeder_response (some "sig-key") [("stdout", .jint 5)] = .ok r ∧
      ∃ t, r.flag = "ERROR_HASHING_FAILED: " ++ t := by
  obtain ⟨r, hr, h1, h2⟩ :=
    c10_process_feeder_response_total "sig-key" [("stdout", .jint 5)]
  exact ⟨r, hr, h1 rfl⟩
